import Mathlib

/-
Shallow embedding of `src/hd44780.py`, the HD44780 LCD driver for the
Raspberry Pi Pico (MicroPython), together with proofs about its behaviour.

The driver is modelled as a state machine.  The mutable attributes of the
Python class `HardwareInterface` become the fields of the structure `HW`;
every method becomes a Lean function from a state to a new state paired with
the list of hardware events (pin writes, pin reconfigurations, delays) the
method emits, in order.  Methods that can raise return an `Except`.
-/

set_option autoImplicit false

namespace Hd44780

/-- The pins the driver touches: the data lines `D[i]` of `Pinout.D`
(indexed by bit position), the Enable line `E`, the register-select line
`RS` and the optional read/write line `RWn`. -/
inductive Pin where
  | d (i : Nat)
  | e
  | rs
  | rwn
  deriving DecidableEq, Repr

/-- One observable hardware event, in the order the driver performs them:
`high p` / `low p` model `p.high()` / `p.low()` (and `Gpio` value writes),
`cfgOut p v` models `Gpio(p, Gpio.OUT, value=v)`,
`cfgIn p pd` models `Gpio(p, Gpio.IN, ...)` with `pd` true when the
pull-down resistor is requested, `sample p` models `p.value()`, and
`sleepUs` / `sleepMs` model `utime.sleep_us` / `utime.sleep_ms`. -/
inductive Ev where
  | high (p : Pin)
  | low (p : Pin)
  | cfgOut (p : Pin) (value : Nat)
  | cfgIn (p : Pin) (pullDown : Bool)
  | sample (p : Pin)
  | sleepUs (us : Nat)
  | sleepMs (ms : Nat)
  deriving DecidableEq, Repr

/-- The exceptions the driver raises: `valueError` models Python
`ValueError` (the spec's RangeError), `exception` models a bare Python
`Exception` (the spec's ConfigurationError / UnsupportedOperation), and
`attributeError` models the crash of `None.opcode` on a failed
`COMMANDS.get` (never reachable through the driver's own calls). -/
inductive Err where
  | valueError (msg : String)
  | exception (msg : String)
  | attributeError
  deriving DecidableEq, Repr

namespace Mode

/-- `Mode.DATA_8` from the source: the chip transfers whole bytes. -/
def DATA_8 : Nat := 1

/-- `Mode.DATA_4` from the source: the chip transfers two nibbles per byte. -/
def DATA_4 : Nat := 2

end Mode

namespace DramRange

/-- Start of the line-1 DDRAM window (`DramRange.L1_START`). -/
def L1_START : Nat := 0x00

/-- End of the line-1 DDRAM window (`DramRange.L1_END`). -/
def L1_END : Nat := 0x27

/-- Start of the line-2 DDRAM window (`DramRange.L2_START`). -/
def L2_START : Nat := 0x40

/-- End of the line-2 DDRAM window (`DramRange.L2_END`). -/
def L2_END : Nat := 0x67

end DramRange

/-- The namedtuple `cmd_pair = namedtuple('cmd_pair', 'opcode duration')`:
field 0 is `opcode`, field 1 is `duration` (microseconds). -/
structure cmd_pair where
  opcode : Nat
  duration : Nat
  deriving DecidableEq, Repr

/-- The static dictionary `HardwareInterface.COMMANDS`, as the partial map
realised by Python's `dict.get` (returning `None` on a missing key). -/
def COMMANDS : String → Option cmd_pair := fun name =>
  if name = "DEFAULT" then some ⟨0x00, 37⟩
  else if name = "DISPLAY_ON" then some ⟨0x0E, 37⟩
  else if name = "DISPLAY_OFF" then some ⟨0x08, 37⟩
  else if name = "DISPLAY_CLEAR" then some ⟨0x01, 1500⟩
  else if name = "CURSOR_HOME" then some ⟨0x02, 1520⟩
  else if name = "MODE_AUTOINC" then some ⟨0x06, 4⟩
  else if name = "FUNCSEL_8BIT" then some ⟨0x38, 37⟩
  else if name = "FUNCSEL_4BIT" then some ⟨0x28, 37⟩
  else if name = "DDRAM_SET" then some ⟨0x80, 37⟩
  else none

/-- The mutable state of a `HardwareInterface` object.  `nD` is
`len(pinout.D)` (the data lines are identified by their bit index), `rwn`
is `pinout.RWn != None`, and `mode`, `output_enabled`, `line_val` are the
attributes of the same names. -/
structure HW where
  nD : Nat
  rwn : Bool
  mode : Nat
  output_enabled : Bool
  line_val : List String
  deriving DecidableEq, Repr

/-- The loop `for elem in self.hw_pin.D: if (v >> index) & 0x1 == 0x1:
elem.high() else elem.low()` used by `write` to drive a value onto the
data lines, bit `i` on line index `i`. -/
def driveLines (nD : Nat) (value : Nat) : List Ev :=
  (List.range nD).map (fun i =>
    if (value >>> i) &&& 0x1 = 0x1 then Ev.high (Pin.d i) else Ev.low (Pin.d i))

/-- `HardwareInterface.__init__(pinout)`: data lines become outputs at 0
when no `RWn` is configured (and `output_enabled` starts true), otherwise
they become plain inputs, `RWn` an output at 1, and `output_enabled`
starts false; then `E` and `RS` become outputs at 1.  The line mirror
starts as `[ "", " "*16, " "*16 ]` so that indices 1 and 2 match the
physical line numbers. -/
def init (nD : Nat) (rwn : Bool) : HW × List Ev :=
  let s : HW :=
    { nD := nD, rwn := rwn, mode := Mode.DATA_8, output_enabled := ! rwn,
      line_val := [(""), String.mk (List.replicate 16 ' '),
                   String.mk (List.replicate 16 ' ')] }
  let tD : List Ev :=
    if ! rwn then
      (List.range nD).map (fun i => Ev.cfgOut (Pin.d i) 0)
    else
      (List.range nD).map (fun i => Ev.cfgIn (Pin.d i) false) ++ [Ev.cfgOut Pin.rwn 1]
  (s, tD ++ [Ev.cfgOut Pin.e 1, Ev.cfgOut Pin.rs 1])

/-- `HardwareInterface.en_gpio_out(enable)`: direction swapping for the
bidirectional bus.  On `enable`, drive `RWn` low (write mode) when it is
configured, then rebuild every data line as an output initialised to 0; on
disable, drive `RWn` high (read mode) when it is configured, then rebuild
every data line as a pulled-down input.  The events appear in exactly the
order the source performs them. -/
def en_gpio_out (s : HW) (enable : Bool) : HW × List Ev :=
  if enable then
    ({ s with output_enabled := true },
      (if s.rwn then [Ev.low Pin.rwn] else []) ++
      (List.range s.nD).map (fun i => Ev.cfgOut (Pin.d i) 0))
  else
    ({ s with output_enabled := false },
      (if s.rwn then [Ev.high Pin.rwn] else []) ++
      (List.range s.nD).map (fun i => Ev.cfgIn (Pin.d i) true))

/-- The guard `if self.output_enabled: self.en_gpio_out(False)` at the top
of `read`. -/
def ensure_released (s : HW) : HW × List Ev :=
  if s.output_enabled then en_gpio_out s false else (s, [])

/-- The guard `if not self.output_enabled: self.en_gpio_out(True)` inside
`write`. -/
def ensure_output (s : HW) : HW × List Ev :=
  if ! s.output_enabled then en_gpio_out s true else (s, [])

/-- `HardwareInterface.read()`: raises when no `RWn` pin exists, otherwise
releases the bus if it was driven, asserts read mode, selects the status
register, pulses Enable and samples each data line.  The sampled value is
not modelled (the only caller discards it). -/
def read (s : HW) : Except Err (HW × List Ev) :=
  if ! s.rwn then
    throw (Err.exception ("Cant read without a RWn pin"))
  else
    let (s1, t0) := ensure_released s
    let t1 : List Ev := [Ev.high Pin.rwn, Ev.low Pin.rs, Ev.high Pin.e, Ev.sleepUs 1]
    let t2 : List Ev := (List.range s1.nD).map (fun i => Ev.sample (Pin.d i))
    let t3 : List Ev := [Ev.low Pin.e, Ev.sleepUs 1]
    pure (s1, t0 ++ t1 ++ t2 ++ t3)

/-- `HardwareInterface.write(char, is_cmd, exe_time)`: optional busy-check
read followed by re-asserting write mode, ensure the bus is driven, select
the command or data register, raise Enable, drive the byte (one transfer
in 8-bit mode, high nibble then low nibble with an extra Enable pulse in
4-bit mode), hold 1 µs, drop Enable, re-assert write mode when `RWn`
exists, and finally sleep `1 + exe_time` µs. -/
def write (s : HW) (char : Nat) (is_cmd : Bool) (exe_time : Nat) :
    Except Err (HW × List Ev) := do
  let (s1, t0) ←
    if s.rwn then do
      let (sr, tr) ← read s
      pure (sr, tr ++ [Ev.low Pin.rwn])
    else
      pure (s, ([] : List Ev))
  let (s2, t1) := ensure_output s1
  let t2 : List Ev := if is_cmd then [Ev.low Pin.rs] else [Ev.high Pin.rs]
  let t3 : List Ev := [Ev.high Pin.e]
  let t4 : List Ev ←
    if s2.mode = Mode.DATA_8 then
      pure (driveLines s2.nD char)
    else if s2.mode = Mode.DATA_4 then
      pure (driveLines s2.nD ((char >>> 4) &&& 0xF) ++
        [Ev.sleepUs 1, Ev.low Pin.e, Ev.sleepUs 1, Ev.high Pin.e] ++
        driveLines s2.nD (char &&& 0xF))
    else
      throw (Err.exception ("Valid mode options are 8BIT and 4BIT"))
  let t5 : List Ev := [Ev.sleepUs 1, Ev.low Pin.e]
  let t6 : List Ev := if s2.rwn then [Ev.low Pin.rwn] else []
  let t7 : List Ev := [Ev.sleepUs (1 + exe_time)]
  pure (s2, t0 ++ t1 ++ t2 ++ t3 ++ t4 ++ t5 ++ t6 ++ t7)

/-- `HardwareInterface.do_cmd(name)`: look the command up and write its
opcode with its documented duration. -/
def do_cmd (s : HW) (name : String) : Except Err (HW × List Ev) :=
  match COMMANDS name with
  | some params => write s params.opcode true params.duration
  | none => throw Err.attributeError

/-- `HardwareInterface.put_char(char)`: writes `ord(char)` as data.  The
source passes `self.COMMANDS.get("DEFAULT")[0]` as `exe_time`; index 0 of
the namedtuple is the `opcode` field, so the value passed is
`DEFAULT.opcode`, not `DEFAULT.duration`. -/
def put_char (s : HW) (char : Char) : Except Err (HW × List Ev) :=
  match COMMANDS ("DEFAULT") with
  | some p => write s char.toNat false p.opcode
  | none => throw Err.attributeError

/-- `HardwareInterface.set_line(lineNo)`: raises `ValueError` outside
`{1, 2}`, otherwise writes `DDRAM_SET.opcode | L1_START` (line 1) or
`DDRAM_SET.opcode | L2_START` (line 2) as a command. -/
def set_line (s : HW) (lineNo : Nat) : Except Err (HW × List Ev) :=
  if ¬ (lineNo = 1 ∨ lineNo = 2) then
    throw (Err.valueError ("Valid range is 1:2"))
  else
    match COMMANDS ("DDRAM_SET") with
    | some ddram =>
      let DRAM_ADDR_CMD : Nat :=
        if lineNo = 1 then ddram.opcode ||| DramRange.L1_START
        else ddram.opcode ||| DramRange.L2_START
      write s DRAM_ADDR_CMD true ddram.duration
    | none => throw Err.attributeError

/-- The character loop of `put_line`: `for char in string: self.put_char(char);
if typingEn: sleep_ms(110)`, threading the state and the trace. -/
def put_line_chars (typingEn : Bool) : List Char → HW × List Ev → Except Err (HW × List Ev)
  | [], acc => pure acc
  | c :: cs, (s, t) => do
    let (s1, t1) ← put_char s c
    let t2 : List Ev := if typingEn then [Ev.sleepMs 110] else []
    put_line_chars typingEn cs (s1, t ++ t1 ++ t2)

/-- `HardwareInterface.put_line(lineNo, string, typingEn)`: select the
line, record `string` as the mirror of that row (`self.line_val[lineNo] =
string`), then emit each character. -/
def put_line (s : HW) (lineNo : Nat) (string : String) (typingEn : Bool) :
    Except Err (HW × List Ev) := do
  let (s1, t0) ← set_line s lineNo
  let s2 : HW := { s1 with line_val := s1.line_val.set lineNo string }
  put_line_chars typingEn string.data (s2, t0)

/-- `HardwareInterface.clear_lin(lineNo)`: `put_line(lineNo, " "*16, False)`. -/
def clear_lin (s : HW) (lineNo : Nat) : Except Err (HW × List Ev) :=
  put_line s lineNo (String.mk (List.replicate 16 ' ')) false

/-- `HardwareInterface.push_line(string, typingEn)`: clear line 1, copy the
remembered line 2 into line 1 and redraw it, clear line 2, record and draw
the new line 2, and pause 100 ms when the typing effect is on. -/
def push_line (s : HW) (string : String) (typingEn : Bool) :
    Except Err (HW × List Ev) := do
  let (s1, t0) ← clear_lin s 1
  let s2 : HW := { s1 with line_val := s1.line_val.set 1 (s1.line_val.getD 2 ("")) }
  let (s3, t1) ← put_line s2 1 (s2.line_val.getD 1 ("")) false
  let (s4, t2) ← clear_lin s3 2
  let s5 : HW := { s4 with line_val := s4.line_val.set 2 string }
  let (s6, t3) ← put_line s5 2 (s5.line_val.getD 2 ("")) typingEn
  let t4 : List Ev := if typingEn then [Ev.sleepMs 100] else []
  pure (s6, t0 ++ t1 ++ t2 ++ t3 ++ t4)

/-- `HardwareInterface.reset()`: the mode-specific initialisation prefix
(three raw `0x30` writes then `FUNCSEL_8BIT` for 8 data lines; the nibble
sequence `0x3, 0x3, 0x2, 0x2` then `FUNCSEL_4BIT` for 4 data lines; an
exception for any other count), followed by `DISPLAY_OFF`,
`DISPLAY_CLEAR`, `MODE_AUTOINC`. -/
def reset (s : HW) : Except Err (HW × List Ev) := do
  let (sp, tp) ←
    if s.nD = 8 then do
      let (a1, u1) ← write s 0x30 true 4100
      let (a2, u2) ← write a1 0x30 true 100
      let (a3, u3) ← write a2 0x30 true 100
      let (a4, u4) ← do_cmd a3 ("FUNCSEL_8BIT")
      pure ({ a4 with mode := Mode.DATA_8 }, u1 ++ u2 ++ u3 ++ u4)
    else if s.nD = 4 then do
      let (a1, u1) ← write s 0x3 true 4100
      let (a2, u2) ← write a1 0x3 true 100
      let (a3, u3) ← write a2 0x2 true 100
      let (a4, u4) ← write a3 0x2 true 100
      let (a5, u5) ← do_cmd a4 ("FUNCSEL_4BIT")
      pure ({ a5 with mode := Mode.DATA_4 }, u1 ++ u2 ++ u3 ++ u4 ++ u5)
    else
      throw (Err.exception ("Generate PinCtl with a valid number of control pins: 4 or 8"))
  let (sq, tq) ← do_cmd sp ("DISPLAY_OFF")
  let (sr, tr) ← do_cmd sq ("DISPLAY_CLEAR")
  let (ss, ts) ← do_cmd sr ("MODE_AUTOINC")
  pure (ss, tp ++ tq ++ tr ++ ts)

/-- `HardwareInterface.start()`: `DISPLAY_ON` then `CURSOR_HOME`. -/
def start (s : HW) : Except Err (HW × List Ev) := do
  let (s1, t1) ← do_cmd s ("DISPLAY_ON")
  let (s2, t2) ← do_cmd s1 ("CURSOR_HOME")
  pure (s2, t1 ++ t2)

/-- `HardwareInterface.clear()`: `DISPLAY_CLEAR`. -/
def clear (s : HW) : Except Err (HW × List Ev) :=
  do_cmd s ("DISPLAY_CLEAR")

/-- Recogniser for a data-line drive event (`elem.high()` or `elem.low()`
on one of `hw_pin.D`), used to isolate the nibble transfers of a trace. -/
def isDataDrive : Ev → Bool
  | Ev.high (Pin.d _) => true
  | Ev.low (Pin.d _) => true
  | _ => false

/-- A freshly constructed driver on 8 data lines with `RWn` tied to ground
(the wiring of `demo.py`, up to the line count). -/
def hw8 : HW := (init 8 false).1

/-- A driver on 4 data lines, no `RWn`, after the 4-bit reset has set
`mode = DATA_4`. -/
def hw4 : HW := { (init 4 false).1 with mode := Mode.DATA_4 }

/-- A driver on 4 data lines with an `RWn` pin, after the 4-bit reset. -/
def hw4rw : HW := { (init 4 true).1 with mode := Mode.DATA_4 }

/-- A misconfigured driver constructed with 5 data lines. -/
def hw5 : HW := (init 5 false).1

end Hd44780

namespace Hd44780

/- Helper lemmas about the state components of the operations.  The traces
are existentially quantified here; the claim-specific theorems pin them
down where the claims are about emitted events. -/

theorem set_oe_eq (s : HW) (h : s.output_enabled = true) :
    { s with output_enabled := true } = s := by
  cases s
  simp_all

theorem ensure_output_fst (s : HW) :
    (ensure_output s).1 = { s with output_enabled := true } := by
  rcases h : s.output_enabled
  · simp [ensure_output, en_gpio_out, h]
  · simp [ensure_output, h, set_oe_eq s h]

theorem ensure_released_fst (s : HW) :
    (ensure_released s).1 = { s with output_enabled := false } := by
  rcases h : s.output_enabled
  · simp only [ensure_released, h, Bool.false_eq_true, if_false]
    cases s
    simp_all
  · simp [ensure_released, en_gpio_out, h]

theorem read_ok (s : HW) (h : s.rwn = true) :
    ∃ tr, read s = Except.ok ({ s with output_enabled := false }, tr) := by
  rcases s with ⟨nD, rwn, mode, oe, lv⟩
  subst h
  cases oe <;> exact ⟨_, rfl⟩

theorem write_ok (s : HW) (c : Nat) (b : Bool) (t : Nat)
    (hm : s.mode = Mode.DATA_8 ∨ s.mode = Mode.DATA_4) :
    ∃ tr, write s c b t = Except.ok ({ s with output_enabled := true }, tr) := by
  rcases s with ⟨nD, rwn, mode, oe, lv⟩
  simp only [Mode.DATA_8, Mode.DATA_4] at hm
  rcases hm with hm | hm <;> subst hm <;> cases rwn <;> cases oe <;>
    exact ⟨_, rfl⟩

theorem put_char_eq (s : HW) (ch : Char) :
    put_char s ch = write s ch.toNat false 0x00 := rfl

theorem put_char_ok (s : HW) (ch : Char)
    (hm : s.mode = Mode.DATA_8 ∨ s.mode = Mode.DATA_4) :
    ∃ tr, put_char s ch = Except.ok ({ s with output_enabled := true }, tr) := by
  rw [put_char_eq]
  exact write_ok s ch.toNat false 0x00 hm

theorem set_line_ok (s : HW) (lineNo : Nat)
    (hm : s.mode = Mode.DATA_8 ∨ s.mode = Mode.DATA_4)
    (hl : lineNo = 1 ∨ lineNo = 2) :
    ∃ tr, set_line s lineNo = Except.ok ({ s with output_enabled := true }, tr) := by
  rcases hl with hl | hl <;> subst hl
  · exact write_ok s 0x80 true 37 hm
  · exact write_ok s 0xC0 true 37 hm

theorem put_line_chars_ok (e : Bool) (l : List Char) (s : HW) (t : List Ev)
    (hm : s.mode = Mode.DATA_8 ∨ s.mode = Mode.DATA_4)
    (ho : s.output_enabled = true) :
    ∃ tr, put_line_chars e l (s, t) = Except.ok (s, tr) := by
  induction l generalizing t with
  | nil => exact ⟨t, rfl⟩
  | cons c cs ih =>
    obtain ⟨t1, h1⟩ := put_char_ok s c hm
    rw [set_oe_eq s ho] at h1
    obtain ⟨tr, htr⟩ := ih (t ++ t1 ++ (if e then [Ev.sleepMs 110] else []))
    refine ⟨tr, ?_⟩
    simp only [put_line_chars, h1]
    exact htr

theorem put_line_ok (s : HW) (lineNo : Nat) (str : String) (e : Bool)
    (hm : s.mode = Mode.DATA_8 ∨ s.mode = Mode.DATA_4)
    (hl : lineNo = 1 ∨ lineNo = 2) :
    ∃ tr, put_line s lineNo str e =
      Except.ok ({ s with output_enabled := true,
                          line_val := s.line_val.set lineNo str }, tr) := by
  obtain ⟨t0, h0⟩ := set_line_ok s lineNo hm hl
  obtain ⟨tr, htr⟩ := put_line_chars_ok e str.data
    { s with output_enabled := true, line_val := s.line_val.set lineNo str } t0 hm rfl
  refine ⟨tr, ?_⟩
  simp only [put_line, h0]
  exact htr

theorem clear_lin_ok (s : HW) (lineNo : Nat)
    (hm : s.mode = Mode.DATA_8 ∨ s.mode = Mode.DATA_4)
    (hl : lineNo = 1 ∨ lineNo = 2) :
    ∃ tr, clear_lin s lineNo =
      Except.ok ({ s with output_enabled := true,
                          line_val := s.line_val.set lineNo
                            (String.mk (List.replicate 16 ' ')) }, tr) :=
  put_line_ok s lineNo (String.mk (List.replicate 16 ' ')) false hm hl

theorem bind_ok_eq {α β : Type} (a : α) (f : α → Except Err β) :
    (bind (Except.ok a : Except Err α) f : Except Err β) = f a := rfl

theorem reset_ok8 (s : HW)
    (hm : s.mode = Mode.DATA_8 ∨ s.mode = Mode.DATA_4) (h8 : s.nD = 8) :
    ∃ tr, reset s =
      Except.ok ({ s with output_enabled := true, mode := Mode.DATA_8 }, tr) := by
  rcases s with ⟨nD, rwn, mode, oe, lv⟩
  obtain rfl : nD = 8 := h8
  rcases hm with hm | hm
  · obtain rfl : mode = 1 := hm
    cases rwn <;> cases oe <;> exact ⟨_, rfl⟩
  · obtain rfl : mode = 2 := hm
    cases rwn <;> cases oe <;> exact ⟨_, rfl⟩

theorem reset_ok4 (s : HW)
    (hm : s.mode = Mode.DATA_8 ∨ s.mode = Mode.DATA_4) (h4 : s.nD = 4) :
    ∃ tr, reset s =
      Except.ok ({ s with output_enabled := true, mode := Mode.DATA_4 }, tr) := by
  rcases s with ⟨nD, rwn, mode, oe, lv⟩
  obtain rfl : nD = 4 := h4
  rcases hm with hm | hm
  · obtain rfl : mode = 1 := hm
    cases rwn <;> cases oe <;> exact ⟨_, rfl⟩
  · obtain rfl : mode = 2 := hm
    cases rwn <;> cases oe <;> exact ⟨_, rfl⟩

theorem push_line_ok (s : HW) (str : String) (e : Bool) (a b c : String)
    (hm : s.mode = Mode.DATA_8 ∨ s.mode = Mode.DATA_4)
    (hlv : s.line_val = [a, b, c]) :
    ∃ tr, push_line s str e =
      Except.ok ({ s with output_enabled := true, line_val := [a, c, str] }, tr) := by
  rcases s with ⟨nD, rwn, mode, oe, lv⟩
  obtain rfl : lv = [a, b, c] := hlv
  have hm' : mode = Mode.DATA_8 ∨ mode = Mode.DATA_4 := hm
  obtain ⟨tA, hA0⟩ := clear_lin_ok ⟨nD, rwn, mode, oe, [a, b, c]⟩ 1 hm' (Or.inl rfl)
  have hA : clear_lin ⟨nD, rwn, mode, oe, [a, b, c]⟩ 1 =
      Except.ok ((⟨nD, rwn, mode, true,
        [a, String.mk (List.replicate 16 ' '), c]⟩ : HW), tA) := hA0
  have r1 : [a, String.mk (List.replicate 16 ' '), c].set 1
      ([a, String.mk (List.replicate 16 ' '), c].getD 2 ("")) = [a, c, c] := rfl
  have r2 : [a, c, c].getD 1 ("") = c := rfl
  obtain ⟨tB, hB0⟩ := put_line_ok ⟨nD, rwn, mode, true, [a, c, c]⟩ 1 c false hm'
    (Or.inl rfl)
  have hB : put_line ⟨nD, rwn, mode, true, [a, c, c]⟩ 1 c false =
      Except.ok ((⟨nD, rwn, mode, true, [a, c, c]⟩ : HW), tB) := hB0
  obtain ⟨tC, hC0⟩ := clear_lin_ok ⟨nD, rwn, mode, true, [a, c, c]⟩ 2 hm' (Or.inr rfl)
  have hC : clear_lin ⟨nD, rwn, mode, true, [a, c, c]⟩ 2 =
      Except.ok ((⟨nD, rwn, mode, true,
        [a, c, String.mk (List.replicate 16 ' ')]⟩ : HW), tC) := hC0
  have r4 : [a, c, String.mk (List.replicate 16 ' ')].set 2 str = [a, c, str] := rfl
  have r5 : [a, c, str].getD 2 ("") = str := rfl
  obtain ⟨tD, hD0⟩ := put_line_ok ⟨nD, rwn, mode, true, [a, c, str]⟩ 2 str e hm'
    (Or.inr rfl)
  have hD : put_line ⟨nD, rwn, mode, true, [a, c, str]⟩ 2 str e =
      Except.ok ((⟨nD, rwn, mode, true, [a, c, str]⟩ : HW), tD) := hD0
  show ∃ tr, push_line ⟨nD, rwn, mode, oe, [a, b, c]⟩ str e =
    Except.ok ((⟨nD, rwn, mode, true, [a, c, str]⟩ : HW), tr)
  simp only [push_line, hA, bind_ok_eq, r1, r2, hB, hC, r4, r5, hD]
  exact ⟨_, rfl⟩

/-- C4: from any driver state whose mirror rows are `b` (row 1) and `c`
(row 2), `put_line(1, "ABC", false)` makes the row-1 mirror "ABC"
immediately, and a following `push_line("XYZ", false)` makes the row-1
mirror equal to the prior row-2 mirror value `c` and the row-2 mirror
"XYZ" — a FIFO shift of exactly one row.  `push_line` performs it as the
source composes it (clear row 1, copy the remembered row 2 into row 1,
clear row 2, then `put_line(2, text)`), and the resulting mirror is a
function of the prior mirror alone — no value is ever read back from the
chip. -/
theorem push_line_fifo_shift :
    ∀ (s : HW) (a b c : String),
      s.line_val = [a, b, c] →
      (s.mode = Mode.DATA_8 ∨ s.mode = Mode.DATA_4) →
      ∃ s1 t1 t2,
        put_line s 1 ("ABC") false = Except.ok (s1, t1) ∧
        s1.line_val = [a, ("ABC"), c] ∧
        push_line s1 ("XYZ") false =
          Except.ok ({ s1 with line_val := [a, c, ("XYZ")] }, t2) := by
  intro s a b c hlv hm
  rcases s with ⟨nD, rwn, mode, oe, lv⟩
  obtain rfl : lv = [a, b, c] := hlv
  have hm' : mode = Mode.DATA_8 ∨ mode = Mode.DATA_4 := hm
  obtain ⟨t1, h10⟩ := put_line_ok ⟨nD, rwn, mode, oe, [a, b, c]⟩ 1 ("ABC") false hm'
    (Or.inl rfl)
  have h1 : put_line ⟨nD, rwn, mode, oe, [a, b, c]⟩ 1 ("ABC") false =
      Except.ok ((⟨nD, rwn, mode, true, [a, ("ABC"), c]⟩ : HW), t1) := h10
  obtain ⟨t2, h2⟩ := push_line_ok ⟨nD, rwn, mode, true, [a, ("ABC"), c]⟩ ("XYZ") false
    a ("ABC") c hm' rfl
  exact ⟨⟨nD, rwn, mode, true, [a, ("ABC"), c]⟩, t1, t2, h1, rfl, h2⟩

/-- C4 witness: on the freshly constructed driver (rows are 16 blanks),
writing "ABC" to row 1 and then pushing "XYZ" shifts the old row 2 into
row 1 and records "XYZ" as row 2. -/
theorem push_line_fifo_shift_witness :
    (hw8.line_val =
      [(""), String.mk (List.replicate 16 ' '), String.mk (List.replicate 16 ' ')] ∧
     (hw8.mode = Mode.DATA_8 ∨ hw8.mode = Mode.DATA_4)) ∧
    (∃ s1 t1 t2,
      put_line hw8 1 ("ABC") false = Except.ok (s1, t1) ∧
      s1.line_val = [(""), ("ABC"), String.mk (List.replicate 16 ' ')] ∧
      push_line s1 ("XYZ") false =
        Except.ok ({ s1 with line_val :=
          [(""), String.mk (List.replicate 16 ' '), ("XYZ")] }, t2)) :=
  ⟨⟨rfl, by decide⟩,
   push_line_fifo_shift hw8 ("") (String.mk (List.replicate 16 ' '))
     (String.mk (List.replicate 16 ' ')) rfl (by decide)⟩

/-- C8: for every driver state, `set_line(1)` writes as its command byte
exactly `DDRAM_SET.opcode | L1_START = 0x80 | 0x00 = 0x80`, and
`set_line(2)` exactly `DDRAM_SET.opcode | L2_START = 0x80 | 0x40 = 0xC0`,
each with the DDRAM_SET duration of 37 µs. -/
theorem set_line_command_bytes :
    ∀ s : HW,
      COMMANDS ("DDRAM_SET") = some ⟨0x80, 37⟩ ∧
      set_line s 1 = write s (0x80 ||| DramRange.L1_START) true 37 ∧
      set_line s 2 = write s (0x80 ||| DramRange.L2_START) true 37 ∧
      0x80 ||| DramRange.L1_START = 0x80 ∧
      0x80 ||| DramRange.L2_START = 0xC0 := by
  intro s
  exact ⟨rfl, rfl, rfl, by decide, by decide⟩

/-- C9: for every driver state and every line number outside `{1, 2}`,
both `set_line` and `put_line` fail with the range `ValueError` (the
spec's RangeError).  In this embedding an erroring operation returns no
successor state and no event trace, so the failing `put_line` leaves the
line mirror (and all other driver state) untouched and emits nothing on
the bus. -/
theorem set_line_put_line_range_error :
    ∀ (s : HW) (lineNo : Nat) (str : String) (e : Bool),
      ¬ (lineNo = 1 ∨ lineNo = 2) →
      set_line s lineNo = Except.error (Err.valueError ("Valid range is 1:2")) ∧
      put_line s lineNo str e = Except.error (Err.valueError ("Valid range is 1:2")) := by
  intro s lineNo str e h
  have hs : set_line s lineNo = Except.error (Err.valueError ("Valid range is 1:2")) := by
    unfold set_line
    rw [if_pos h]
    rfl
  refine ⟨hs, ?_⟩
  simp only [put_line, hs]
  rfl

/-- C9 witness: line number 3 is rejected by both operations on the
freshly constructed 8-line driver. -/
theorem set_line_put_line_range_error_witness :
    (¬ (3 = 1 ∨ 3 = 2)) ∧
    (set_line hw8 3 = Except.error (Err.valueError ("Valid range is 1:2")) ∧
     put_line hw8 3 ("ABC") false = Except.error (Err.valueError ("Valid range is 1:2"))) :=
  ⟨by decide, set_line_put_line_range_error hw8 3 ("ABC") false (by decide)⟩

/-- C6: switching the bus from Released to Driving with a Read/Write line
configured emits the write-mode assertion (`RWn.low()`) strictly before
any data-line reconfiguration, and then rebuilds every data line as an
output initialised low. -/
theorem drive_order_write_mode_first :
    ∀ s : HW, s.rwn = true → s.output_enabled = false →
      (en_gpio_out s true).1.output_enabled = true ∧
      (en_gpio_out s true).2 =
        Ev.low Pin.rwn :: (List.range s.nD).map (fun i => Ev.cfgOut (Pin.d i) 0) := by
  intro s h1 h2
  refine ⟨?_, ?_⟩
  · simp [en_gpio_out]
  · simp [en_gpio_out, h1]

/-- C6 witness: the 4-line driver with an `RWn` pin starts Released, and
switching it to Driving puts the write-mode assertion first. -/
theorem drive_order_write_mode_first_witness :
    (hw4rw.rwn = true ∧ hw4rw.output_enabled = false) ∧
    ((en_gpio_out hw4rw true).1.output_enabled = true ∧
     (en_gpio_out hw4rw true).2 =
       Ev.low Pin.rwn :: (List.range hw4rw.nD).map (fun i => Ev.cfgOut (Pin.d i) 0)) :=
  ⟨⟨by decide, by decide⟩,
   drive_order_write_mode_first hw4rw (by decide) (by decide)⟩

/-- C7 counterexample: calling `en_gpio_out` twice in a row with the same
target (Driving) performs the full pin reconfiguration twice — the second
call emits the same non-empty event list as the first instead of being a
no-op, because `en_gpio_out` never checks `output_enabled`. -/
theorem en_gpio_out_not_idempotent_cex :
    (en_gpio_out hw4rw true).2 =
      [Ev.low Pin.rwn, Ev.cfgOut (Pin.d 0) 0, Ev.cfgOut (Pin.d 1) 0,
       Ev.cfgOut (Pin.d 2) 0, Ev.cfgOut (Pin.d 3) 0] ∧
    (en_gpio_out (en_gpio_out hw4rw true).1 true).2 =
      [Ev.low Pin.rwn, Ev.cfgOut (Pin.d 0) 0, Ev.cfgOut (Pin.d 1) 0,
       Ev.cfgOut (Pin.d 2) 0, Ev.cfgOut (Pin.d 3) 0] ∧
    (en_gpio_out (en_gpio_out hw4rw true).1 true).2 ≠ ([] : List Ev) := by
  exact ⟨by decide, by decide, by decide⟩

/-- C7 as amended: the idempotence guard sits at `en_gpio_out`'s call
sites, not inside it.  `write` swaps direction through
`if not output_enabled: en_gpio_out(True)` and `read` through
`if output_enabled: en_gpio_out(False)`; repeating either guarded swap
performs the reconfiguration exactly once — the second application leaves
the state fixed and emits no pin operations.  `en_gpio_out` itself always
reconfigures. -/
theorem guarded_direction_swap_idempotent :
    ∀ s : HW,
      ensure_output (ensure_output s).1 = ((ensure_output s).1, ([] : List Ev)) ∧
      ensure_released (ensure_released s).1 = ((ensure_released s).1, ([] : List Ev)) := by
  intro s
  rcases s with ⟨nD, rwn, mode, oe, lv⟩
  cases oe <;> exact ⟨rfl, rfl⟩

/-- C3 (code bug evidence): moving the bus to Released from a Driving
state with a Read/Write line present, the driver asserts `RWn` high (read
mode) as the very first emitted operation and only afterwards reconfigures
the data lines as inputs — the opposite of the input-first order the spec
requires (and of the order `read`'s own comment demands), so the LCD can
drive the bus against the still-enabled Pico outputs. -/
theorem release_order_rwn_before_inputs :
    (en_gpio_out (en_gpio_out hw4rw true).1 false).2 =
      [Ev.high Pin.rwn, Ev.cfgIn (Pin.d 0) true, Ev.cfgIn (Pin.d 1) true,
       Ev.cfgIn (Pin.d 2) true, Ev.cfgIn (Pin.d 3) true] ∧
    (en_gpio_out (en_gpio_out hw4rw true).1 false).2.head? =
      some (Ev.high Pin.rwn) := by
  exact ⟨by decide, by decide⟩

/-- C2 (code bug evidence): `put_char` passes
`COMMANDS.get("DEFAULT")[0]` — index 0 of the namedtuple, which is the
`opcode` field `0x00`, not the `duration` field `37` — as `exe_time`, so
a data-byte write ends with `sleep_us(1 + 0)` and never performs the
documented `1 + 37` µs settling delay. -/
theorem put_char_passes_default_opcode_as_delay :
    (COMMANDS ("DEFAULT")).map cmd_pair.duration = some 37 ∧
    (COMMANDS ("DEFAULT")).map cmd_pair.opcode = some 0x00 ∧
    put_char hw8 'A' = write hw8 (('A').toNat) false 0x00 ∧
    put_char hw8 'A' =
      Except.ok (hw8,
        [Ev.high Pin.rs, Ev.high Pin.e, Ev.high (Pin.d 0), Ev.low (Pin.d 1),
         Ev.low (Pin.d 2), Ev.low (Pin.d 3), Ev.low (Pin.d 4), Ev.low (Pin.d 5),
         Ev.high (Pin.d 6), Ev.low (Pin.d 7), Ev.sleepUs 1, Ev.low Pin.e,
         Ev.sleepUs (1 + 0)]) ∧
    Ev.sleepUs (1 + 37) ∉ ((put_char hw8 'A').toOption.map Prod.snd).getD [] := by
  exact ⟨rfl, rfl, rfl, rfl, by decide⟩

/-- C1 counterexample: on the freshly constructed driver (whose rows are
16 blanks), `put_line(1, "ABC", false)` leaves the row-1 mirror equal to
`"ABC"` — 3 characters, not a blank-padded 16: the claimed 16-character
invariant of the line mirror fails for non-16-character arguments. -/
theorem put_line_mirror_not_padded_cex :
    hw8.line_val.length = 3 ∧
    (hw8.line_val.getD 1 ("")).length = 16 ∧
    (put_line hw8 1 ("ABC") false).toOption.map
      (fun r => (r.1.line_val.getD 1 ("")).length) = some 3 ∧
    ¬ ((put_line hw8 1 ("ABC") false).toOption.map
      (fun r => (r.1.line_val.getD 1 ("")).length) = some 16) := by
  exact ⟨by decide, by decide, by decide, by decide⟩

/-- C1 as amended: after construction both mirror rows are exactly 16
blank characters, but `put_line(line, text, e)` records exactly `text` as
the mirror row — the driver does not pad — so the row is 16 characters
wide only when `text` itself is.  (The rows return to width 16 whenever a
16-character string, e.g. `clear_lin`'s 16 blanks, is written.) -/
theorem line_mirror_width_amended :
    (∀ (nD : Nat) (rwn : Bool),
      ((init nD rwn).1.line_val.getD 1 ("")).length = 16 ∧
      ((init nD rwn).1.line_val.getD 2 ("")).length = 16) ∧
    (∀ (s : HW) (lineNo : Nat) (str : String) (e : Bool),
      (s.mode = Mode.DATA_8 ∨ s.mode = Mode.DATA_4) →
      (lineNo = 1 ∨ lineNo = 2) →
      s.line_val.length = 3 →
      ∃ tr, put_line s lineNo str e =
          Except.ok ({ s with output_enabled := true,
                              line_val := s.line_val.set lineNo str }, tr) ∧
        (s.line_val.set lineNo str).getD lineNo ("") = str ∧
        (s.line_val.set lineNo str).length = 3) := by
  constructor
  · intro nD rwn
    exact ⟨rfl, rfl⟩
  · intro s lineNo str e hm hl hlen
    obtain ⟨tr, htr⟩ := put_line_ok s lineNo str e hm hl
    obtain ⟨x, y, z, hxyz⟩ := List.length_eq_three.mp hlen
    refine ⟨tr, htr, ?_, ?_⟩ <;> rw [hxyz] <;> rcases hl with hl | hl <;> subst hl <;> rfl

/-- C1 amended witness: writing "ABC" to row 1 of the fresh driver records
exactly "ABC". -/
theorem line_mirror_width_amended_witness :
    ((hw8.mode = Mode.DATA_8 ∨ hw8.mode = Mode.DATA_4) ∧ (1 = 1 ∨ 1 = 2) ∧
      hw8.line_val.length = 3) ∧
    (∃ tr, put_line hw8 1 ("ABC") false =
        Except.ok
          ({ hw8 with output_enabled := true, line_val := hw8.line_val.set 1 ("ABC") },
            tr) ∧
      (hw8.line_val.set 1 ("ABC")).getD 1 ("") = ("ABC") ∧
      (hw8.line_val.set 1 ("ABC")).length = 3) :=
  ⟨⟨by decide, by decide, by decide⟩,
   line_mirror_width_amended.2 hw8 1 ("ABC") false (by decide) (by decide) (by decide)⟩

/-- C5: in FourBit mode, writing the byte `0xA5` emits exactly two nibble
transfers on the 4 data lines — first the high nibble `0xA = (0xA5 >> 4) & 0xF`,
then the low nibble `0x5 = 0xA5 & 0xF` — each bracketed by its own Enable
pulse with 1 µs holds: high nibble driven, 1 µs hold, Enable dropped, 1 µs
hold, Enable raised again, low nibble driven, 1 µs hold, Enable dropped.
The lead-in `pre` (busy check, direction swap, register select) contains
no data-line drive at all, so the data-line drives of the whole trace are
exactly the two nibble patterns in order. -/
theorem write_fourbit_two_nibbles :
    ∀ (s : HW) (is_cmd : Bool) (t : Nat),
      s.mode = Mode.DATA_4 → s.nD = 4 →
      ∃ pre s1,
        write s 0xA5 is_cmd t = Except.ok (s1,
          pre ++ [Ev.high Pin.e] ++ driveLines 4 0xA ++
          [Ev.sleepUs 1, Ev.low Pin.e, Ev.sleepUs 1, Ev.high Pin.e] ++
          driveLines 4 0x5 ++ [Ev.sleepUs 1, Ev.low Pin.e] ++
          (if s.rwn then [Ev.low Pin.rwn] else []) ++ [Ev.sleepUs (1 + t)]) ∧
        pre.filter isDataDrive = [] ∧
        (pre ++ [Ev.high Pin.e] ++ driveLines 4 0xA ++
          [Ev.sleepUs 1, Ev.low Pin.e, Ev.sleepUs 1, Ev.high Pin.e] ++
          driveLines 4 0x5 ++ [Ev.sleepUs 1, Ev.low Pin.e] ++
          (if s.rwn then [Ev.low Pin.rwn] else []) ++
          [Ev.sleepUs (1 + t)]).filter isDataDrive =
            driveLines 4 0xA ++ driveLines 4 0x5 ∧
        driveLines 4 0xA = driveLines 4 ((0xA5 >>> 4) &&& 0xF) ∧
        driveLines 4 0x5 = driveLines 4 (0xA5 &&& 0xF) := by
  intro s is_cmd t hm hd
  rcases s with ⟨nD, rwn, mode, oe, lv⟩
  obtain rfl : nD = 4 := hd
  obtain rfl : mode = 2 := hm
  cases rwn <;> cases oe <;> cases is_cmd
  · exact ⟨[Ev.cfgOut (Pin.d 0) 0, Ev.cfgOut (Pin.d 1) 0, Ev.cfgOut (Pin.d 2) 0,
      Ev.cfgOut (Pin.d 3) 0, Ev.high Pin.rs], _, rfl, rfl, rfl, rfl, rfl⟩
  · exact ⟨[Ev.cfgOut (Pin.d 0) 0, Ev.cfgOut (Pin.d 1) 0, Ev.cfgOut (Pin.d 2) 0,
      Ev.cfgOut (Pin.d 3) 0, Ev.low Pin.rs], _, rfl, rfl, rfl, rfl, rfl⟩
  · exact ⟨[Ev.high Pin.rs], _, rfl, rfl, rfl, rfl, rfl⟩
  · exact ⟨[Ev.low Pin.rs], _, rfl, rfl, rfl, rfl, rfl⟩
  · exact ⟨[Ev.high Pin.rwn, Ev.low Pin.rs, Ev.high Pin.e, Ev.sleepUs 1,
      Ev.sample (Pin.d 0), Ev.sample (Pin.d 1), Ev.sample (Pin.d 2),
      Ev.sample (Pin.d 3), Ev.low Pin.e, Ev.sleepUs 1, Ev.low Pin.rwn,
      Ev.low Pin.rwn, Ev.cfgOut (Pin.d 0) 0, Ev.cfgOut (Pin.d 1) 0,
      Ev.cfgOut (Pin.d 2) 0, Ev.cfgOut (Pin.d 3) 0, Ev.high Pin.rs], _,
      rfl, rfl, rfl, rfl, rfl⟩
  · exact ⟨[Ev.high Pin.rwn, Ev.low Pin.rs, Ev.high Pin.e, Ev.sleepUs 1,
      Ev.sample (Pin.d 0), Ev.sample (Pin.d 1), Ev.sample (Pin.d 2),
      Ev.sample (Pin.d 3), Ev.low Pin.e, Ev.sleepUs 1, Ev.low Pin.rwn,
      Ev.low Pin.rwn, Ev.cfgOut (Pin.d 0) 0, Ev.cfgOut (Pin.d 1) 0,
      Ev.cfgOut (Pin.d 2) 0, Ev.cfgOut (Pin.d 3) 0, Ev.low Pin.rs], _,
      rfl, rfl, rfl, rfl, rfl⟩
  · exact ⟨[Ev.high Pin.rwn, Ev.cfgIn (Pin.d 0) true, Ev.cfgIn (Pin.d 1) true,
      Ev.cfgIn (Pin.d 2) true, Ev.cfgIn (Pin.d 3) true, Ev.high Pin.rwn,
      Ev.low Pin.rs, Ev.high Pin.e, Ev.sleepUs 1, Ev.sample (Pin.d 0),
      Ev.sample (Pin.d 1), Ev.sample (Pin.d 2), Ev.sample (Pin.d 3),
      Ev.low Pin.e, Ev.sleepUs 1, Ev.low Pin.rwn, Ev.low Pin.rwn,
      Ev.cfgOut (Pin.d 0) 0, Ev.cfgOut (Pin.d 1) 0, Ev.cfgOut (Pin.d 2) 0,
      Ev.cfgOut (Pin.d 3) 0, Ev.high Pin.rs], _, rfl, rfl, rfl, rfl, rfl⟩
  · exact ⟨[Ev.high Pin.rwn, Ev.cfgIn (Pin.d 0) true, Ev.cfgIn (Pin.d 1) true,
      Ev.cfgIn (Pin.d 2) true, Ev.cfgIn (Pin.d 3) true, Ev.high Pin.rwn,
      Ev.low Pin.rs, Ev.high Pin.e, Ev.sleepUs 1, Ev.sample (Pin.d 0),
      Ev.sample (Pin.d 1), Ev.sample (Pin.d 2), Ev.sample (Pin.d 3),
      Ev.low Pin.e, Ev.sleepUs 1, Ev.low Pin.rwn, Ev.low Pin.rwn,
      Ev.cfgOut (Pin.d 0) 0, Ev.cfgOut (Pin.d 1) 0, Ev.cfgOut (Pin.d 2) 0,
      Ev.cfgOut (Pin.d 3) 0, Ev.low Pin.rs], _, rfl, rfl, rfl, rfl, rfl⟩

/-- C5 witness: the command write of `0xA5` on the 4-bit driver without a
Read/Write line emits the two nibble transfers `0xA` then `0x5`. -/
theorem write_fourbit_two_nibbles_witness :
    (hw4.mode = Mode.DATA_4 ∧ hw4.nD = 4) ∧
    (∃ pre s1,
      write hw4 0xA5 true 37 = Except.ok (s1,
        pre ++ [Ev.high Pin.e] ++ driveLines 4 0xA ++
        [Ev.sleepUs 1, Ev.low Pin.e, Ev.sleepUs 1, Ev.high Pin.e] ++
        driveLines 4 0x5 ++ [Ev.sleepUs 1, Ev.low Pin.e] ++
        (if hw4.rwn then [Ev.low Pin.rwn] else []) ++ [Ev.sleepUs (1 + 37)]) ∧
      pre.filter isDataDrive = [] ∧
      (pre ++ [Ev.high Pin.e] ++ driveLines 4 0xA ++
        [Ev.sleepUs 1, Ev.low Pin.e, Ev.sleepUs 1, Ev.high Pin.e] ++
        driveLines 4 0x5 ++ [Ev.sleepUs 1, Ev.low Pin.e] ++
        (if hw4.rwn then [Ev.low Pin.rwn] else []) ++
        [Ev.sleepUs (1 + 37)]).filter isDataDrive =
          driveLines 4 0xA ++ driveLines 4 0x5 ∧
      driveLines 4 0xA = driveLines 4 ((0xA5 >>> 4) &&& 0xF) ∧
      driveLines 4 0x5 = driveLines 4 (0xA5 &&& 0xF)) :=
  ⟨⟨by decide, by decide⟩,
   write_fourbit_two_nibbles hw4 true 37 (by decide) (by decide)⟩

/-- C10: `reset()` fails with the configuration exception (the spec's
ConfigurationError) for every configured data-line count other than 4 or
8; with exactly 8 data lines it succeeds and leaves `mode = DATA_8`
(EightBit), and with exactly 4 it succeeds and leaves `mode = DATA_4`
(FourBit).  The success cases assume the mode field holds one of its two
legal values, which is true in every reachable state. -/
theorem reset_mode_selection :
    ∀ s : HW,
      (¬ (s.nD = 4 ∨ s.nD = 8) →
        reset s = Except.error (Err.exception
          ("Generate PinCtl with a valid number of control pins: 4 or 8"))) ∧
      ((s.mode = Mode.DATA_8 ∨ s.mode = Mode.DATA_4) →
        (s.nD = 8 →
          ∃ tr, reset s =
            Except.ok ({ s with output_enabled := true, mode := Mode.DATA_8 }, tr)) ∧
        (s.nD = 4 →
          ∃ tr, reset s =
            Except.ok ({ s with output_enabled := true, mode := Mode.DATA_4 }, tr))) := by
  intro s
  refine ⟨?_, fun hm => ⟨fun h8 => reset_ok8 s hm h8, fun h4 => reset_ok4 s hm h4⟩⟩
  intro h
  have h8 : ¬ s.nD = 8 := fun hh => h (Or.inr hh)
  have h4 : ¬ s.nD = 4 := fun hh => h (Or.inl hh)
  simp only [reset]
  rw [if_neg h8, if_neg h4]
  rfl

/-- C10 witness: a 5-line driver is rejected, an 8-line driver resets into
EightBit mode, and a 4-line driver resets into FourBit mode. -/
theorem reset_mode_selection_witness :
    (¬ (hw5.nD = 4 ∨ hw5.nD = 8)) ∧
    reset hw5 = Except.error (Err.exception
      ("Generate PinCtl with a valid number of control pins: 4 or 8")) ∧
    ((hw8.mode = Mode.DATA_8 ∨ hw8.mode = Mode.DATA_4) ∧ hw8.nD = 8) ∧
    (∃ tr, reset hw8 =
      Except.ok ({ hw8 with output_enabled := true, mode := Mode.DATA_8 }, tr)) ∧
    ((hw4.mode = Mode.DATA_8 ∨ hw4.mode = Mode.DATA_4) ∧ hw4.nD = 4) ∧
    (∃ tr, reset hw4 =
      Except.ok ({ hw4 with output_enabled := true, mode := Mode.DATA_4 }, tr)) :=
  ⟨by decide,
   (reset_mode_selection hw5).1 (by decide),
   ⟨by decide, by decide⟩,
   ((reset_mode_selection hw8).2 (by decide)).1 (by decide),
   ⟨by decide, by decide⟩,
   ((reset_mode_selection hw4).2 (by decide)).2 (by decide)⟩

end Hd44780
